import Mathlib

/-!
Shallow embedding of the ERC-6492 universal signature verification
orchestrator `verifyHash` (src/unnamed/part_000) and the collaborator
interfaces it consumes, together with theorems settling the spec claims.

The orchestrator itself (normalization dispatch, maybe-wrap step, payload
selection, remote call, decode, catch-and-fallback policy) is translated
from the source.  Collaborator helpers that the source imports from modules
not shown (isHex/bytesToHex/serializeSignature, isErc6492Signature,
serializeErc6492Signature, encodeFunctionData/encodeDeployData, hexToBool,
recoverAddress, getAddress/isAddressEqual, and the call executor) are
modelled from the spec, as noted on each definition.
-/

/-- Canonical hex data, modelled as its byte sequence. -/
abbrev Hex := List Nat

/-- An account address: a 160-bit account value plus a representation
detail (checksum casing).  Two addresses denote the same account iff their
values agree after canonical normalization. -/
structure Address where
  val : Nat
  rep : Nat
deriving DecidableEq

/-- Modelled from the spec: AddressUtil.normalize (the source's
`getAddress`) puts an address into canonical checksum form; the underlying
account value is unchanged and the representation detail becomes
canonical. -/
def getAddress (a : Address) : Address := ⟨a.val, 0⟩

/-- Modelled from the spec: AddressUtil.equal (the source's
`isAddressEqual`): equality of the underlying account values, i.e.
equality after canonical normalization. -/
def isAddressEqual (a b : Address) : Bool := a.val == b.val

/-- The three caller-supplied signature shapes accepted by `verifyHash`
(`Hex | ByteArray | Signature`): a hex character string (a list of nibble
values, where a value of 16 or more stands for a non-hex character), a raw
byte sequence, and the structured r/s/yParity triple. -/
inductive SignatureInput where
  | hex (nibbles : List Nat)
  | structured (r s yParity : Nat)
  | bytes (b : Hex)
deriving DecidableEq

/-- The error kinds that can flow through `verifyHash`:
`encodingError` (malformed signature input), `invalidHexBooleanError`
(non-boolean-shaped return data, the source's InvalidHexBooleanError),
`callExecutionError` (the remote validator reverted, the source's
CallExecutionError), `transportError` (network / timeout / connection
fault) and a catch-all for any other failure. -/
inductive VError where
  | encodingError
  | invalidHexBooleanError
  | callExecutionError
  | transportError
  | other (n : Nat)
deriving DecidableEq

/-- Pair up hex nibbles into bytes (big-endian within each byte). -/
def nibblesToBytes : List Nat → List Nat
  | a :: b :: rest => (a * 16 + b) :: nibblesToBytes rest
  | _ => []

/-- Big-endian encoding of a natural number into a fixed number of bytes. -/
def natToBeBytes : Nat → Nat → List Nat
  | 0, _ => []
  | w + 1, n => natToBeBytes w (n / 256) ++ [n % 256]

/-- Modelled from the spec: SignatureCodec serialization of the structured
triple (the source's `serializeSignature`): two 32-byte big-endian
integers followed by a 1-byte recovery id offset to the ledger's
convention. -/
def serializeSignature (r s yParity : Nat) : Hex :=
  natToBeBytes 32 r ++ natToBeBytes 32 s ++ [(27 + yParity) % 256]

/-- Normalization of the caller's signature into canonical byte form,
following the dispatch order of the source (hex string first, then the
structured triple, then raw bytes).  The hex-validity test and
serialization helpers (isHex, serializeSignature, bytesToHex) are not in
the shown source and are modelled from the spec: a hex input is valid iff
every character is a hex digit and the digit count is even; otherwise
normalization fails with `encodingError`. -/
def normalizeSig : SignatureInput → Except VError Hex
  | .hex ns =>
      if ns.all (fun c => c < 16) && ns.length % 2 == 0 then
        .ok (nibblesToBytes ns)
      else .error .encodingError
  | .structured r s yParity => .ok (serializeSignature r s yParity)
  | .bytes b => .ok b

/-- Modelled from the spec: the fixed trailing magic marker identifying an
ERC-6492 wrapped signature. -/
def erc6492MagicBytes : Hex := List.flatten (List.replicate 16 [0x64, 0x92])

/-- Modelled from the spec: a signature is wrapped iff its byte sequence
ends with the fixed magic marker (the source's `isErc6492Signature`). -/
def isErc6492Signature (sig : Hex) : Bool := erc6492MagicBytes.isSuffixOf sig

/-- Modelled from the spec: ABI-style encoding of an (address, bytes,
bytes) argument triple — the fixed-width address value followed by each
byte string with a length prefix. -/
def encodeAbiTriple (a : Address) (h sig : Hex) : Hex :=
  natToBeBytes 20 a.val ++ natToBeBytes 4 h.length ++ h
    ++ natToBeBytes 4 sig.length ++ sig

/-- Modelled from the spec: wrap — ABI-style encode (factory address,
factory call data, inner signature) followed by the magic marker (the
source's `serializeErc6492Signature`). -/
def serializeErc6492Signature (factory : Address) (data sig : Hex) : Hex :=
  encodeAbiTriple factory data sig ++ erc6492MagicBytes

/-- Modelled from the spec: the fixed 4-byte selector of the universal
validator's `isValidUniversalSig` entry point. -/
def isValidUniversalSigSelector : Hex := [0x16, 0x92, 0x6a, 0x7c]

/-- Modelled from the spec: the fixed reference bytecode of the universal
signature validator contract. -/
def universalSignatureValidatorByteCode : Hex := [0x60, 0x80, 0x60, 0x40, 0x52]

/-- Modelled from the spec: ABIEncoder.encodeCall for the
`isValidUniversalSig(address, hash, signature)` invocation — the entry
point's selector followed by the ABI-encoded argument triple. -/
def encodeFunctionData (address : Address) (hash : Hex) (sig : Hex) : Hex :=
  isValidUniversalSigSelector ++ encodeAbiTriple address hash sig

/-- Modelled from the spec: ABIEncoder.encodeConstructor (the source's
`encodeDeployData`) — the fixed validator bytecode followed by the
ABI-encoded constructor argument triple. -/
def encodeDeployData (address : Address) (hash : Hex) (sig : Hex) : Hex :=
  universalSignatureValidatorByteCode ++ encodeAbiTriple address hash sig

/-- Modelled from the spec: ResultDecoder.decode (the source's
`hexToBool`).  Boolean-shaped data has every byte before the last equal to
zero; empty data decodes to `false` and otherwise the trailing byte
decides (nonzero means `true`).  Non-boolean-shaped data fails with
`invalidHexBooleanError`. -/
def hexToBool (h : Hex) : Except VError Bool :=
  if h.dropLast.all (fun b => b == 0) then
    .ok (match h.getLast? with
         | none => false
         | some b => b != 0)
  else .error .invalidHexBooleanError

/-- The slice of the client's chain configuration consulted by
`verifyHash`: the optional known deployed universal signature verifier
contract address (`client.chain?.contracts?.universalSignatureVerifier`;
the `blockCreated` marker is irrelevant to verification). -/
structure Client where
  universalSignatureVerifier : Option Address
deriving DecidableEq

/-- The call payload handed to the external call executor: an optional
destination address (the source's `to` field, renamed since `to` is a
reserved word here), opaque call data, and the caller's pass-through call
options (block selector), carried unchanged. -/
structure CallPayload where
  dest : Option Address
  data : Hex
  rest : Nat
deriving DecidableEq

/-- The deployment recipe: either absent, or a required (factory address,
factory call data) pair — a sum type, never one half without the other. -/
abbrev DeploymentParams := Option (Address × Hex)

/-- The parameters of `verifyHash`: claimed signer address, hash,
signature in any of the three shapes, optional deployment recipe, and
pass-through call options. -/
structure VerifyHashParameters where
  address : Address
  hash : Hex
  signature : SignatureInput
  deployment : DeploymentParams
  rest : Nat
deriving DecidableEq

/-- The maybe-wrap step of `verifyHash` (source lines 71-86): with no
deployment recipe the normalized signature passes through; with a recipe,
an already-wrapped signature passes through unchanged and otherwise the
signature is wrapped with the ERC-6492 wrapper. -/
def maybeWrap (deployment : DeploymentParams) (signatureHex : Hex) : Hex :=
  match deployment with
  | none => signatureHex
  | some (factory, factoryData) =>
      if isErc6492Signature signatureHex then signatureHex
      else serializeErc6492Signature factory factoryData signatureHex

/-- The payload-construction step of `verifyHash` (source lines 89-107):
if the chain configuration names a known deployed universal validator the
payload targets that contract with an encoded `isValidUniversalSig` call;
otherwise the payload is a contract-creation-style call (no destination)
carrying the deploy data. -/
def buildCallPayload (client : Client) (address : Address) (hash : Hex)
    (wrappedSignature : Hex) (rest : Nat) : CallPayload :=
  match client.universalSignatureVerifier with
  | some verifier =>
      { dest := some verifier
        data := encodeFunctionData address hash wrappedSignature
        rest := rest }
  | none =>
      { dest := none
        data := encodeDeployData address hash wrappedSignature
        rest := rest }

/-- The exact payload `verifyHash` hands to the call executor, given the
normalized signature. -/
def remoteCallParameters (client : Client) (p : VerifyHashParameters)
    (signatureHex : Hex) : CallPayload :=
  buildCallPayload client p.address p.hash
    (maybeWrap p.deployment signatureHex) p.rest

/-- The external call executor collaborator: takes the payload and either
returns the (optional) raw result bytes or fails with an error. -/
abbrev CallExecutor := CallPayload → Except VError (Option Hex)

/-- The local recovery collaborator (the source's `recoverAddress`):
elliptic-curve recovery from the hash and the caller-shaped signature,
yielding the recovered address or a recovery error. -/
abbrev RecoverFn := Hex → SignatureInput → Except Unit Address

/-- The fallback check of the catch block (source lines 114-120): recovery
succeeded and the recovered address equals the canonically normalized
claimed address; a recovery failure is swallowed and counts as
not-confirmed. -/
def fallbackVerified (recoverFn : RecoverFn) (address : Address)
    (hash : Hex) (signature : SignatureInput) : Bool :=
  match recoverFn hash signature with
  | .ok recovered => isAddressEqual (getAddress address) recovered
  | .error _ => false

/-- The try block of `verifyHash` (source lines 109-111): run the remote
call and decode the returned bytes, with absent data decoded as a single
zero byte. -/
def tryRemote (callFn : CallExecutor) (callParameters : CallPayload) :
    Except VError Bool :=
  match callFn callParameters with
  | .error e => .error e
  | .ok data => hexToBool (data.getD [0])

/-- The body of `verifyHash` after normalization: try the remote path; on
any caught error attempt the recovery fallback, then classify the original
error (a revert yields `false`, anything else is re-raised) — source
lines 88-130. -/
def verifyHashBody (callFn : CallExecutor) (recoverFn : RecoverFn)
    (client : Client) (p : VerifyHashParameters) (signatureHex : Hex) :
    Except VError Bool :=
  match tryRemote callFn (remoteCallParameters client p signatureHex) with
  | .ok b => .ok b
  | .error error =>
      if fallbackVerified recoverFn p.address p.hash p.signature then .ok true
      else if error = VError.callExecutionError then .ok false
      else .error error

/-- The orchestrator `verifyHash` (source lines 58-131), as a function of
the two injected collaborators (call executor, recovery), the client
configuration and the parameters. -/
def verifyHash (callFn : CallExecutor) (recoverFn : RecoverFn)
    (client : Client) (p : VerifyHashParameters) : Except VError Bool :=
  match normalizeSig p.signature with
  | .error e => .error e
  | .ok signatureHex => verifyHashBody callFn recoverFn client p signatureHex

/-- The spec's decode formula, stated from the spec's words for
comparison with the implementation: absent or empty return data decodes to
`false`; otherwise `true` exactly when the trailing byte is nonzero. -/
def specDecodedBool (d : Option Hex) : Bool :=
  match d with
  | none => false
  | some bytes =>
      match bytes.getLast? with
      | none => false
      | some b => b != 0

/-! ### General lemmas about the orchestrator -/

/-- Once normalization succeeds, `verifyHash` is its body at the
normalized signature. -/
theorem verifyHash_normalized (callFn : CallExecutor) (recoverFn : RecoverFn)
    (client : Client) (p : VerifyHashParameters) (signatureHex : Hex)
    (hn : normalizeSig p.signature = .ok signatureHex) :
    verifyHash callFn recoverFn client p =
      verifyHashBody callFn recoverFn client p signatureHex := by
  simp only [verifyHash, hn]

/-- When the executor fails, the body is the catch block's classification
of the error. -/
theorem verifyHashBody_error (callFn : CallExecutor) (recoverFn : RecoverFn)
    (client : Client) (p : VerifyHashParameters) (signatureHex : Hex)
    (e : VError)
    (he : callFn (remoteCallParameters client p signatureHex) = .error e) :
    verifyHashBody callFn recoverFn client p signatureHex =
      (if fallbackVerified recoverFn p.address p.hash p.signature then .ok true
       else if e = VError.callExecutionError then .ok false
       else .error e) := by
  simp only [verifyHashBody, tryRemote, he]

/-- When the executor succeeds and decoding succeeds, the body is the
decoded boolean. -/
theorem verifyHashBody_decode_ok (callFn : CallExecutor)
    (recoverFn : RecoverFn) (client : Client) (p : VerifyHashParameters)
    (signatureHex : Hex) (d : Option Hex) (b : Bool)
    (he : callFn (remoteCallParameters client p signatureHex) = .ok d)
    (hd : hexToBool (d.getD [0]) = .ok b) :
    verifyHashBody callFn recoverFn client p signatureHex = .ok b := by
  simp only [verifyHashBody, tryRemote, he, hd]

/-- When the executor succeeds but decoding fails, the body is the catch
block's classification of the decode error. -/
theorem verifyHashBody_decode_error (callFn : CallExecutor)
    (recoverFn : RecoverFn) (client : Client) (p : VerifyHashParameters)
    (signatureHex : Hex) (d : Option Hex) (e : VError)
    (he : callFn (remoteCallParameters client p signatureHex) = .ok d)
    (hd : hexToBool (d.getD [0]) = .error e) :
    verifyHashBody callFn recoverFn client p signatureHex =
      (if fallbackVerified recoverFn p.address p.hash p.signature then .ok true
       else if e = VError.callExecutionError then .ok false
       else .error e) := by
  simp only [verifyHashBody, tryRemote, he, hd]

/-! ### Concrete fixtures used by witnesses and counterexamples -/

/-- A claimed signer address in non-canonical representation. -/
def addrA : Address := ⟨1, 7⟩

/-- The known deployed universal validator address of a configured chain. -/
def addrV : Address := ⟨0x872146, 0⟩

/-- A client whose chain names a known deployed universal validator. -/
def usvClient : Client := ⟨some addrV⟩

/-- A sample parameter record with a raw-bytes signature and no deployment
recipe. -/
def sampleParams : VerifyHashParameters :=
  { address := addrA, hash := [5, 6], signature := .bytes [1, 2],
    deployment := none, rest := 0 }

/-- An executor that always fails with a transport error. -/
def cfTransport : CallExecutor := fun _ => .error .transportError

/-- An executor that always fails with an execution revert. -/
def cfRevert : CallExecutor := fun _ => .error .callExecutionError

/-- An executor whose returned data is not boolean-shaped. -/
def cfBadData : CallExecutor := fun _ => .ok (some [7, 7])

/-- An executor that always fails with an unclassified error. -/
def cfOther : CallExecutor := fun _ => .error (.other 3)

/-- A recovery oracle that always recovers the account value of `addrA`
(under a different representation, exercising canonical equality). -/
def rfMatch : RecoverFn := fun _ _ => .ok ⟨1, 3⟩

/-- A recovery oracle that always fails with a recovery error. -/
def rfNever : RecoverFn := fun _ _ => .error ()

/-! ### C1 -/

/-- C1 counterexample: the executor fails with a transport error (not a
revert), yet `verifyHash` attempts the local ECDSA-recovery fallback and,
since the oracle recovers the claimed address, returns `true` rather than
raising — refuting that such a failure is propagated immediately without
attempting fallback. -/
theorem c1_counterexample :
    cfTransport (remoteCallParameters usvClient sampleParams [1, 2]) =
      .error .transportError
    ∧ verifyHash cfTransport rfMatch usvClient sampleParams = .ok true :=
  ⟨rfl, rfl⟩

/-- C1 (amended): on a remote-call failure that is not an execution
revert, `verifyHash` never returns `false`; it first attempts the local
recovery fallback, returns `true` when the fallback confirms the claimed
address, and otherwise re-raises the original error. -/
theorem c1_nonrevert_failure (callFn : CallExecutor) (recoverFn : RecoverFn)
    (client : Client) (p : VerifyHashParameters) (signatureHex : Hex)
    (e : VError)
    (hn : normalizeSig p.signature = .ok signatureHex)
    (he : callFn (remoteCallParameters client p signatureHex) = .error e)
    (hne : e ≠ VError.callExecutionError) :
    verifyHash callFn recoverFn client p =
      (if fallbackVerified recoverFn p.address p.hash p.signature
       then .ok true else .error e)
    ∧ verifyHash callFn recoverFn client p ≠ .ok false := by
  rw [verifyHash_normalized callFn recoverFn client p signatureHex hn,
    verifyHashBody_error callFn recoverFn client p signatureHex e he]
  simp only [if_neg hne]
  cases fallbackVerified recoverFn p.address p.hash p.signature <;> simp

/-- C1 witness: with a transport-failing executor and a never-confirming
recovery oracle, `verifyHash` re-raises the transport error and does not
return `false`. -/
theorem c1_witness :
    verifyHash cfTransport rfNever usvClient sampleParams =
      (if fallbackVerified rfNever sampleParams.address sampleParams.hash
          sampleParams.signature
       then .ok true else .error VError.transportError)
    ∧ verifyHash cfTransport rfNever usvClient sampleParams ≠ .ok false :=
  c1_nonrevert_failure cfTransport rfNever usvClient sampleParams [1, 2]
    VError.transportError rfl rfl (by decide)

/-! ### C2 -/

/-- C2: when the remote call fails with an execution revert, `verifyHash`
returns (never raises) exactly the fallback verdict: `true` iff local
recovery succeeds and the recovered address canonically equals the
claimed address, and `false` otherwise. -/
theorem c2_revert_fallback (callFn : CallExecutor) (recoverFn : RecoverFn)
    (client : Client) (p : VerifyHashParameters) (signatureHex : Hex)
    (hn : normalizeSig p.signature = .ok signatureHex)
    (he : callFn (remoteCallParameters client p signatureHex) =
      .error VError.callExecutionError) :
    verifyHash callFn recoverFn client p =
      .ok (fallbackVerified recoverFn p.address p.hash p.signature)
    ∧ (fallbackVerified recoverFn p.address p.hash p.signature = true ↔
        ∃ recovered, recoverFn p.hash p.signature = Except.ok recovered
          ∧ isAddressEqual (getAddress p.address) recovered = true) := by
  constructor
  · rw [verifyHash_normalized callFn recoverFn client p signatureHex hn,
      verifyHashBody_error callFn recoverFn client p signatureHex
        VError.callExecutionError he]
    cases fallbackVerified recoverFn p.address p.hash p.signature <;> simp
  · unfold fallbackVerified
    cases hr : recoverFn p.hash p.signature with
    | ok recovered => simp [hr]
    | error u => simp [hr]

/-- C2 witness: with a reverting executor and a matching recovery oracle,
`verifyHash` returns the fallback verdict and the verdict characterizes
the canonical address match. -/
theorem c2_witness :
    verifyHash cfRevert rfMatch usvClient sampleParams =
      .ok (fallbackVerified rfMatch sampleParams.address sampleParams.hash
        sampleParams.signature)
    ∧ (fallbackVerified rfMatch sampleParams.address sampleParams.hash
        sampleParams.signature = true ↔
        ∃ recovered, rfMatch sampleParams.hash sampleParams.signature =
          Except.ok recovered
          ∧ isAddressEqual (getAddress sampleParams.address) recovered = true) :=
  c2_revert_fallback cfRevert rfMatch usvClient sampleParams [1, 2] rfl rfl

/-! ### C3 -/

/-- C3: exactly one of two payloads is built, selected by whether the
chain configuration names a known deployed universal validator: a call to
the configured contract whose data is the encoded is-valid-signature
invocation over (address, hash, wrapped-or-plain signature), or a
creation-style call with no destination whose data is the fixed validator
bytecode concatenated with the encoded constructor arguments; and
`verifyHash` consults the executor only at that payload. -/
theorem c3_payload_selection (callFn callFn' : CallExecutor)
    (recoverFn : RecoverFn) (client : Client) (p : VerifyHashParameters)
    (signatureHex : Hex)
    (hn : normalizeSig p.signature = .ok signatureHex) :
    (∀ a, client.universalSignatureVerifier = some a →
      remoteCallParameters client p signatureHex =
        { dest := some a
          data := isValidUniversalSigSelector
            ++ encodeAbiTriple p.address p.hash
              (maybeWrap p.deployment signatureHex)
          rest := p.rest })
    ∧ (client.universalSignatureVerifier = none →
      remoteCallParameters client p signatureHex =
        { dest := none
          data := universalSignatureValidatorByteCode
            ++ encodeAbiTriple p.address p.hash
              (maybeWrap p.deployment signatureHex)
          rest := p.rest })
    ∧ (callFn (remoteCallParameters client p signatureHex) =
        callFn' (remoteCallParameters client p signatureHex) →
      verifyHash callFn recoverFn client p =
        verifyHash callFn' recoverFn client p) := by
  refine ⟨?_, ?_, ?_⟩
  · intro a ha
    simp [remoteCallParameters, buildCallPayload, ha, encodeFunctionData]
  · intro ha
    simp [remoteCallParameters, buildCallPayload, ha, encodeDeployData]
  · intro hagree
    rw [verifyHash_normalized callFn recoverFn client p signatureHex hn,
      verifyHash_normalized callFn' recoverFn client p signatureHex hn]
    simp only [verifyHashBody, tryRemote, hagree]

/-- C3 witness: on a chain naming a deployed validator, the built payload
targets that contract with the encoded invocation data. -/
theorem c3_witness :
    remoteCallParameters usvClient sampleParams [1, 2] =
      { dest := some addrV
        data := isValidUniversalSigSelector
          ++ encodeAbiTriple sampleParams.address sampleParams.hash
            (maybeWrap sampleParams.deployment [1, 2])
        rest := sampleParams.rest } :=
  (c3_payload_selection cfTransport cfTransport rfNever usvClient
    sampleParams [1, 2] rfl).1 addrV rfl

/-! ### C4 -/

/-- C4: the maybe-wrap step never wraps an already-wrapped signature (it
is passed on unchanged), skips wrapping when no deployment recipe is
present, and wraps exactly when a recipe is present and the signature is
not yet wrapped. -/
theorem c4_wrap_policy (deployment : DeploymentParams) (signatureHex : Hex) :
    (isErc6492Signature signatureHex = true →
      maybeWrap deployment signatureHex = signatureHex)
    ∧ maybeWrap none signatureHex = signatureHex
    ∧ (∀ factory factoryData, isErc6492Signature signatureHex = false →
        maybeWrap (some (factory, factoryData)) signatureHex =
          serializeErc6492Signature factory factoryData signatureHex) := by
  refine ⟨?_, rfl, ?_⟩
  · intro hw
    cases deployment with
    | none => rfl
    | some pair => simp [maybeWrap, hw]
  · intro factory factoryData hnw
    simp [maybeWrap, hnw]

/-- C4 witness: a concrete already-wrapped signature passes through the
maybe-wrap step unchanged even with a deployment recipe present, and a
plain signature passes through when the recipe is absent. -/
theorem c4_witness :
    maybeWrap (some (addrA, [9])) (1 :: erc6492MagicBytes) =
      1 :: erc6492MagicBytes
    ∧ maybeWrap none [1, 2] = [1, 2] :=
  ⟨(c4_wrap_policy (some (addrA, [9])) (1 :: erc6492MagicBytes)).1 (by decide),
   (c4_wrap_policy none [1, 2]).2.1⟩

/-! ### C5 -/

/-- C5 counterexample: the remote call succeeds with non-boolean-shaped
data, the decoder fails, yet the decode error is not propagated — the
recovery fallback runs and, since the oracle recovers the claimed
address, `verifyHash` converts the failure into the boolean `true`. -/
theorem c5_counterexample :
    hexToBool [7, 7] = .error .invalidHexBooleanError
    ∧ verifyHash cfBadData rfMatch usvClient sampleParams = .ok true :=
  ⟨rfl, rfl⟩

/-- C5 (amended): when the remote call succeeds but the returned data is
not boolean-shaped, the decode error is caught like any remote-path
error: the local recovery fallback runs, `verifyHash` returns `true` when
it confirms the claimed address, and otherwise re-raises the decode
error; the error is never converted into `false`. -/
theorem c5_decode_error_policy (callFn : CallExecutor)
    (recoverFn : RecoverFn) (client : Client) (p : VerifyHashParameters)
    (signatureHex : Hex) (d : Option Hex)
    (hn : normalizeSig p.signature = .ok signatureHex)
    (hc : callFn (remoteCallParameters client p signatureHex) = .ok d)
    (hd : hexToBool (d.getD [0]) = .error VError.invalidHexBooleanError) :
    verifyHash callFn recoverFn client p =
      (if fallbackVerified recoverFn p.address p.hash p.signature
       then .ok true else .error VError.invalidHexBooleanError)
    ∧ verifyHash callFn recoverFn client p ≠ .ok false := by
  rw [verifyHash_normalized callFn recoverFn client p signatureHex hn,
    verifyHashBody_decode_error callFn recoverFn client p signatureHex d
      VError.invalidHexBooleanError hc hd]
  cases fallbackVerified recoverFn p.address p.hash p.signature <;> simp

/-- C5 witness: with non-boolean-shaped return data and a never-confirming
recovery oracle, `verifyHash` re-raises the decode error and does not
return `false`. -/
theorem c5_witness :
    verifyHash cfBadData rfNever usvClient sampleParams =
      (if fallbackVerified rfNever sampleParams.address sampleParams.hash
          sampleParams.signature
       then .ok true else .error VError.invalidHexBooleanError)
    ∧ verifyHash cfBadData rfNever usvClient sampleParams ≠ .ok false :=
  c5_decode_error_policy cfBadData rfNever usvClient sampleParams [1, 2]
    (some [7, 7]) rfl rfl rfl

/-! ### C6 -/

/-- C6: a hex-string signature that is malformed (a non-hex character) or
of odd length makes normalization fail with an encoding error, which is
the result of `verifyHash` for every executor, recovery oracle and
client — so no remote call is made and no fallback is attempted. -/
theorem c6_malformed_hex (p : VerifyHashParameters) (ns : List Nat)
    (hp : p.signature = .hex ns)
    (hbad : ns.all (fun c => c < 16) = false ∨ ns.length % 2 = 1) :
    ∀ (callFn : CallExecutor) (recoverFn : RecoverFn) (client : Client),
      verifyHash callFn recoverFn client p = .error VError.encodingError := by
  intro callFn recoverFn client
  have hcond : (ns.all (fun c => c < 16) && ns.length % 2 == 0) = false := by
    rcases hbad with h | h
    · simp [h]
    · rw [h]; simp
  simp [verifyHash, normalizeSig, hp, hcond]

/-- C6 witness: an odd-length hex signature yields the encoding error at a
concrete executor, oracle and client. -/
theorem c6_witness :
    verifyHash cfTransport rfMatch usvClient
      { address := addrA, hash := [5, 6], signature := .hex [1],
        deployment := none, rest := 0 } = .error VError.encodingError :=
  c6_malformed_hex
    { address := addrA, hash := [5, 6], signature := .hex [1],
      deployment := none, rest := 0 }
    [1] rfl (Or.inr rfl) cfTransport rfMatch usvClient

/-! ### C7 -/

/-- A plain inner signature used to build a wrapped sample. -/
def innerSig : Hex := [1, 2, 3]

/-- A factory address for the wrapped sample. -/
def factoryAddr : Address := ⟨77, 0⟩

/-- A caller-supplied signature already in wrapped (ERC-6492) form, built
around `innerSig`. -/
def wrappedOuter : Hex := serializeErc6492Signature factoryAddr [9] innerSig

/-- Parameters whose caller-supplied signature is already wrapped. -/
def c7Params : VerifyHashParameters :=
  { address := addrA, hash := [5, 6], signature := .bytes wrappedOuter,
    deployment := none, rest := 0 }

/-- A recovery oracle that recovers the claimed account only when given
the wrapper bytes themselves, and fails on every other input — in
particular on the unwrapped inner signature. -/
def rfOuterOnly : RecoverFn := fun h s =>
  if h = [5, 6] ∧ s = SignatureInput.bytes wrappedOuter then .ok addrA
  else .error ()

/-- C7 counterexample: the caller supplies an already-wrapped signature;
two recovery oracles that agree on the unwrapped inner signature (both
fail there) produce different `verifyHash` results, because the fallback
consults recovery at the wrapper bytes, not at the inner signature. -/
theorem c7_counterexample :
    isErc6492Signature wrappedOuter = true
    ∧ rfOuterOnly c7Params.hash (SignatureInput.bytes innerSig) =
        rfNever c7Params.hash (SignatureInput.bytes innerSig)
    ∧ verifyHash cfRevert rfOuterOnly usvClient c7Params = .ok true
    ∧ verifyHash cfRevert rfNever usvClient c7Params = .ok false := by
  refine ⟨by decide, ?_, ?_, ?_⟩ <;> rfl

/-- C7 (amended): the fallback consults elliptic-curve recovery exactly at
the hash and the original caller-supplied signature value, unchanged —
not at the normalized, wrapped, or unwrapped form: two recovery oracles
agreeing there make `verifyHash` agree, for every executor and client. -/
theorem c7_recovery_argument (callFn : CallExecutor)
    (recoverFn recoverFn' : RecoverFn) (client : Client)
    (p : VerifyHashParameters)
    (h : recoverFn p.hash p.signature = recoverFn' p.hash p.signature) :
    verifyHash callFn recoverFn client p =
      verifyHash callFn recoverFn' client p := by
  unfold verifyHash
  cases hn : normalizeSig p.signature with
  | error e => rfl
  | ok signatureHex => simp only [verifyHashBody, fallbackVerified, h]

/-- C7 witness: two concrete oracles that agree at the parameters' hash
and original signature give the same verification result. -/
theorem c7_witness :
    verifyHash cfRevert rfOuterOnly usvClient sampleParams =
      verifyHash cfRevert rfNever usvClient sampleParams :=
  c7_recovery_argument cfRevert rfOuterOnly rfNever usvClient sampleParams
    rfl

/-! ### C8 -/

/-- C8: for every successful remote call returning boolean-shaped (or
absent) data, the final result of `verifyHash` is exactly the decoded
boolean, and it equals the spec's formula: absent or empty data gives
`false`, otherwise `true` exactly when the trailing byte is nonzero. -/
theorem c8_decode_success (callFn : CallExecutor) (recoverFn : RecoverFn)
    (client : Client) (p : VerifyHashParameters) (signatureHex : Hex)
    (d : Option Hex)
    (hn : normalizeSig p.signature = .ok signatureHex)
    (hc : callFn (remoteCallParameters client p signatureHex) = .ok d)
    (hshape : (d.getD [0]).dropLast.all (fun b => b == 0) = true) :
    verifyHash callFn recoverFn client p = .ok (specDecodedBool d) := by
  have hdec : hexToBool (d.getD [0]) = .ok (specDecodedBool d) := by
    cases d with
    | none => rfl
    | some bytes =>
        simp only [Option.getD] at hshape ⊢
        simp [hexToBool, specDecodedBool, hshape]
  rw [verifyHash_normalized callFn recoverFn client p signatureHex hn]
  exact verifyHashBody_decode_ok callFn recoverFn client p signatureHex d
    (specDecodedBool d) hc hdec

/-- An executor returning canonical boolean-true data. -/
def cfTrueData : CallExecutor := fun _ => .ok (some [0, 1])

/-- C8 witness: with return data whose trailing byte is nonzero,
`verifyHash` returns the spec formula's decoded boolean. -/
theorem c8_witness :
    verifyHash cfTrueData rfNever usvClient sampleParams =
      .ok (specDecodedBool (some [0, 1])) :=
  c8_decode_success cfTrueData rfNever usvClient sampleParams [1, 2]
    (some [0, 1]) rfl rfl (by decide)

/-! ### C9 -/

/-- C9: a recovery error inside the fallback step is swallowed and never
surfaces: when the remote call fails and recovery fails on the
parameters' hash and signature, the result of `verifyHash` is decided by
the original remote error alone — `false` for an execution revert, the
re-raised original error otherwise. -/
theorem c9_recovery_error_swallowed (callFn : CallExecutor)
    (recoverFn : RecoverFn) (client : Client) (p : VerifyHashParameters)
    (signatureHex : Hex) (e : VError)
    (hn : normalizeSig p.signature = .ok signatureHex)
    (hr : recoverFn p.hash p.signature = .error ())
    (he : callFn (remoteCallParameters client p signatureHex) = .error e) :
    verifyHash callFn recoverFn client p =
      (if e = VError.callExecutionError then .ok false else .error e) := by
  rw [verifyHash_normalized callFn recoverFn client p signatureHex hn,
    verifyHashBody_error callFn recoverFn client p signatureHex e he]
  simp [fallbackVerified, hr]

/-- C9 witness: with a failing recovery oracle and a transport failure,
`verifyHash` re-raises the original transport error — the recovery error
does not surface. -/
theorem c9_witness :
    verifyHash cfTransport rfNever usvClient sampleParams =
      (if VError.transportError = VError.callExecutionError then .ok false
       else .error VError.transportError) :=
  c9_recovery_error_swallowed cfTransport rfNever usvClient sampleParams
    [1, 2] VError.transportError rfl rfl rfl

/-! ### C10 -/

/-- C10: whenever the whole remote path fails — executor failure of any
kind, or a decode failure on returned data — and recovery of the original
signature succeeds with an address canonically equal to the claimed one,
`verifyHash` returns `true`: a successful recovery match masks
infrastructure failures. -/
theorem c10_recovery_masks_failures (callFn : CallExecutor)
    (recoverFn : RecoverFn) (client : Client) (p : VerifyHashParameters)
    (signatureHex : Hex) (e : VError) (recovered : Address)
    (hn : normalizeSig p.signature = .ok signatureHex)
    (he : tryRemote callFn (remoteCallParameters client p signatureHex) =
      .error e)
    (hr : recoverFn p.hash p.signature = .ok recovered)
    (hm : isAddressEqual (getAddress p.address) recovered = true) :
    verifyHash callFn recoverFn client p = .ok true := by
  rw [verifyHash_normalized callFn recoverFn client p signatureHex hn]
  have hf : fallbackVerified recoverFn p.address p.hash p.signature = true := by
    simp [fallbackVerified, hr, hm]
  simp only [verifyHashBody, he, hf, if_pos]

/-- C10 witness: an unclassified executor failure together with a matching
recovery oracle yields `true`. -/
theorem c10_witness :
    verifyHash cfOther rfMatch usvClient sampleParams = .ok true :=
  c10_recovery_masks_failures cfOther rfMatch usvClient sampleParams [1, 2]
    (.other 3) ⟨1, 3⟩ rfl rfl rfl rfl
